import Mathlib

/-!
Verification of `github-stats-rs` (`src/search/query.rs`, `src/repository.rs`)
against its natural-language specification.

The network layer is abstracted: every function that performs an HTTP GET in
the Rust source is parameterised here by the decoded response it would have
received, so the field-extraction and rendering logic can be analysed exactly
as written.
-/

/-- Shallow embedding of `serde_json::Value`: the loosely-typed JSON tree that
`Repo::new` traverses. Objects keep their key-value pairs in order; lookup
takes the first matching key, as serde's map does for unique keys. -/
inductive Json where
  | null : Json
  | bool (b : Bool) : Json
  | num (q : ℚ) : Json
  | str (s : String) : Json
  | arr (elems : List Json) : Json
  | obj (fields : List (String × Json)) : Json

/-- `value[key]` indexing of serde: returns the stored value for `key` when
the receiver is an object containing it, and `Null` otherwise. -/
def Json.get (j : Json) (key : String) : Json :=
  match j with
  | .obj fields =>
    match fields.lookup key with
    | some v => v
    | none => .null
  | _ => .null

/-- `Value::as_str`. -/
def Json.as_str : Json → Option String
  | .str s => some s
  | _ => none

/-- `Value::as_bool`. -/
def Json.as_bool : Json → Option Bool
  | .bool b => some b
  | _ => none

/-- `Value::as_f64`: any JSON number converts. -/
def Json.as_f64 : Json → Option ℚ
  | .num q => some q
  | _ => none

/-- `Value::as_u64`: succeeds exactly on integral numbers in `u64` range. -/
def Json.as_u64 : Json → Option Nat
  | .num q => if q.den = 1 ∧ 0 ≤ q.num ∧ q.num < 2 ^ 64 then some q.num.toNat else none
  | _ => none

/-- The `Query` builder of `src/search/query.rs`: four ordered sequences of
filter terms. -/
structure Query where
  repo : List String
  is : List String
  type : List String
  state : List String
deriving DecidableEq

/-- `Query::new()`: all four sequences start empty (`#[derive(Default)]`). -/
def Query.new : Query :=
  { repo := [], is := [], type := [], state := [] }

/-- `Query::repo(user, repo)`: appends `user/repo` to the `repo` sequence. -/
def Query.repo_ (q : Query) (user : String) (repo : String) : Query :=
  { q with repo := q.repo ++ [user ++ "/" ++ repo] }

/-- `Query::is(statement)`: appends to the `is` sequence. -/
def Query.is_ (q : Query) (statement : String) : Query :=
  { q with is := q.is ++ [statement] }

/-- `Query::r#type(statement)`: appends to the `type` sequence. -/
def Query.type_ (q : Query) (statement : String) : Query :=
  { q with type := q.type ++ [statement] }

/-- `impl fmt::Display for Query`: prefix each term of each sequence with its
category, concatenate the four lists in the fixed order repo, is, type,
state, join with `+`, and write `q=` before the result. -/
def Query.render (q : Query) : String :=
  let repo := q.repo.map (fun s => "repo:" ++ s)
  let isTerms := q.is.map (fun s => "is:" ++ s)
  let typeTerms := q.type.map (fun s => "type:" ++ s)
  let stateTerms := q.state.map (fun s => "state:" ++ s)
  let queries := repo ++ isTerms ++ typeTerms ++ stateTerms
  let queries := String.intercalate "+" queries
  "q=" ++ queries

/-- Modelled from the spec: the crate's other repository-record variant (the
directly-deserialized `Repo` re-exported from the crate root, which is not
among the provided sources) carries the platform's `full_name` of the
repository; `Query::from_repo` reads exactly that accessor. -/
structure SearchRepo where
  full_name : String

/-- `Query::from_repo(repo)`: seeds the `repo` sequence with the one term
`repo.full_name()`, leaving the other sequences at their defaults. -/
def Query.from_repo (repo : SearchRepo) : Query :=
  { repo := [repo.full_name], is := [], type := [], state := [] }

/-- `fmt` of `impl fmt::Display for Query` as an explicit state-passing
function: the formatter output together with the builder as it stands after
the call (the method borrows `&self` and assigns to none of its fields, so
the post-state is rebuilt from the untouched fields). -/
def Query.fmtState (q : Query) : String × Query :=
  (q.render, { repo := q.repo, is := q.is, type := q.type, state := q.state })

/-- Rendering a builder `n` times in sequence, threading the builder state
through each call; returns the list of outputs and the final state. -/
def Query.renderTimes (q : Query) : Nat → List String × Query
  | 0 => ([], q)
  | n + 1 =>
    let first := q.fmtState
    let rest := first.2.renderTimes n
    (first.1 :: rest.1, rest.2)

/-- The queries reachable through the public builder interface: start from
`Query::new()` or `Query::from_repo(..)` and apply any sequence of the three
public append operations `repo`, `is`, `type`. -/
inductive Query.Reachable : Query → Prop where
  | new : Query.Reachable Query.new
  | from_repo (r : SearchRepo) : Query.Reachable (Query.from_repo r)
  | repo (q : Query) (user repo : String) :
      Query.Reachable q → Query.Reachable (q.repo_ user repo)
  | is (q : Query) (statement : String) :
      Query.Reachable q → Query.Reachable (q.is_ statement)
  | type (q : Query) (statement : String) :
      Query.Reachable q → Query.Reachable (q.type_ statement)

/-- C1: rendering a `Query` yields `q=` followed by every accumulated term
rendered as `<prefix>:<term>`, in the fixed category order repo, is, type,
state (insertion order inside each category), joined by `+`; the empty
builder `Query::new()` renders exactly `q=`. -/
theorem query_render_contract (q : Query) :
    q.render =
      "q=" ++ String.intercalate "+"
        (q.repo.map (fun s => "repo:" ++ s)
          ++ q.is.map (fun s => "is:" ++ s)
          ++ q.type.map (fun s => "type:" ++ s)
          ++ q.state.map (fun s => "state:" ++ s))
    ∧ Query.new.render = "q=" := by
  constructor
  · rfl
  · rfl

/-- C2: the chained builder call of the source's unit test renders exactly
`q=repo:rust-lang/rust+is:merged+type:pr`, and swapping the order of the
`type` and `is` calls produces the identical string: the rendered category
order is fixed by the renderer, not by call order. -/
theorem query_builder_round_trip :
    (((Query.new.repo_ "rust-lang" "rust").type_ "pr").is_ "merged").render
      = "q=repo:rust-lang/rust+is:merged+type:pr"
    ∧ (((Query.new.repo_ "rust-lang" "rust").is_ "merged").type_ "pr").render
      = "q=repo:rust-lang/rust+is:merged+type:pr" := by
  constructor
  · rfl
  · rfl

/-- C7: `Query::from_repo(r)` puts exactly one term, `r`'s full name, in the
`repo` sequence, leaves `is`, `type` and `state` empty, and renders to
`q=repo:<full name of r>`. -/
theorem query_from_repo_seeds (r : SearchRepo) :
    (Query.from_repo r).repo = [r.full_name]
    ∧ (Query.from_repo r).is = []
    ∧ (Query.from_repo r).type = []
    ∧ (Query.from_repo r).state = []
    ∧ (Query.from_repo r).render = "q=repo:" ++ r.full_name := by
  refine ⟨rfl, rfl, rfl, rfl, ?_⟩
  show "q=" ++ String.intercalate "+" ["repo:" ++ r.full_name] = "q=repo:" ++ r.full_name
  have h1 : String.intercalate "+" ["repo:" ++ r.full_name] = "repo:" ++ r.full_name := rfl
  rw [h1, ← String.append_assoc]
  rfl

/-- C8: rendering does not consume or mutate the builder: after any number of
successive renderings the builder's four term sequences are exactly those of
the original, and every rendering in the sequence produced the identical
string `q.render`. -/
theorem query_render_pure (q : Query) (n : Nat) :
    (q.renderTimes n).2 = q
    ∧ ∀ s ∈ (q.renderTimes n).1, s = q.render := by
  induction n with
  | zero => exact ⟨rfl, by intro s hs; simp [Query.renderTimes] at hs⟩
  | succ n ih =>
    have hstate : q.fmtState.2 = q := rfl
    constructor
    · show ((q.fmtState.2.renderTimes n).2) = q
      rw [hstate]
      exact ih.1
    · intro s hs
      simp only [Query.renderTimes, List.mem_cons] at hs
      rcases hs with h | h
      · exact h
      · rw [hstate] at h
        exact ih.2 s h

/-- C9: no public builder operation appends to the `state` sequence, so every
`Query` reachable through the public interface has an empty `state` sequence
and its rendering consists of the `repo`, `is` and `type` terms only — no
`state:` term is ever rendered, although the renderer supports one. -/
theorem query_state_unreachable (q : Query) (h : Query.Reachable q) :
    q.state = []
    ∧ q.render = "q=" ++ String.intercalate "+"
        (q.repo.map (fun s => "repo:" ++ s)
          ++ q.is.map (fun s => "is:" ++ s)
          ++ q.type.map (fun s => "type:" ++ s)) := by
  have hstate : q.state = [] := by
    induction h with
    | new => rfl
    | from_repo r => rfl
    | repo q u r _ ih => exact ih
    | is q s _ ih => exact ih
    | type q s _ ih => exact ih
  refine ⟨hstate, ?_⟩
  have h0 : q.render = "q=" ++ String.intercalate "+"
      (q.repo.map (fun s => "repo:" ++ s)
        ++ q.is.map (fun s => "is:" ++ s)
        ++ q.type.map (fun s => "type:" ++ s)
        ++ q.state.map (fun s => "state:" ++ s)) := rfl
  rw [h0, hstate]
  simp

/-- Witness for C9 at the concrete reachable builder
`Query::new().repo("rust-lang","rust").is("open")`. -/
theorem query_state_unreachable_witness :
    ((Query.new.repo_ "rust-lang" "rust").is_ "open").state = []
    ∧ ((Query.new.repo_ "rust-lang" "rust").is_ "open").render
        = "q=" ++ String.intercalate "+"
            (((Query.new.repo_ "rust-lang" "rust").is_ "open").repo.map (fun s => "repo:" ++ s)
              ++ ((Query.new.repo_ "rust-lang" "rust").is_ "open").is.map (fun s => "is:" ++ s)
              ++ ((Query.new.repo_ "rust-lang" "rust").is_ "open").type.map (fun s => "type:" ++ s)) :=
  query_state_unreachable _
    (Query.Reachable.is _ "open" (Query.Reachable.repo _ "rust-lang" "rust" Query.Reachable.new))

/-- Modelled from the spec: a release record with tag name, publish timestamp
and release name/body (`src/repository/releases.rs` is not among the provided
sources; the field set follows spec section 3). -/
structure Release where
  tag_name : String
  published_at : String
  name : String
  body : String
deriving DecidableEq

/-- One entry of the single issue-listing response: an open/closed state and
the presence of the pull-request marker field. -/
structure IssueEntry where
  is_open : Bool
  is_pull_request : Bool
deriving DecidableEq

/-- Modelled from the spec: `issue_stats` (`src/repository/issues.rs` is not
among the provided sources) partitions the entries of the single listing
response by two independent axes — open vs. closed and pull-request marker
present vs. absent — and returns
(open issues, closed issues, open pull requests, closed pull requests). -/
def issue_stats (entries : List IssueEntry) : Nat × Nat × Nat × Nat :=
  ((entries.filter (fun e => !e.is_pull_request && e.is_open)).length,
   (entries.filter (fun e => !e.is_pull_request && !e.is_open)).length,
   (entries.filter (fun e => e.is_pull_request && e.is_open)).length,
   (entries.filter (fun e => e.is_pull_request && !e.is_open)).length)

/-- The `Repo` record of `src/repository.rs` (sizes in kilobytes are modelled
as exact rationals; the language map as its key-value list). -/
structure Repo where
  name : String
  created : String
  updated : String
  primary_language : String
  languages : List (String × Nat)
  homepage : Option String
  size : ℚ
  stars : Nat
  forks : Nat
  open_issues : Nat
  closed_issues : Nat
  open_pull_requests : Nat
  closed_pull_requests : Nat
  latest_release : Option Release
  is_fork : Bool
deriving DecidableEq

/-- Rust's `Option::ok_or` followed by `?`: an absent value becomes the given
error. -/
def ok_or {α : Type} (o : Option α) (msg : String) : Except String α :=
  match o with
  | some a => Except.ok a
  | none => Except.error msg

/-- The inline `match` on `repo_data["homepage"].as_str()` in `Repo::new`:
absence, a non-string value, or the empty string all map to `None`. -/
def homepage_of (repo_data : Json) : Option String :=
  match (repo_data.get "homepage").as_str with
  | none => none
  | some "" => none
  | some s => some s

/-- `Repo::new`, with the four HTTP fetches abstracted as parameters: the
decoded base-metadata JSON, the languages fetch keyed by the URL taken from
the response, the issue-listing fetch, and the latest-release fetch. Field
extraction follows the source order and error strings exactly. -/
def Repo.new (repo_data : Json)
    (fetch_languages : String → Except String (List (String × Nat)))
    (fetch_issues : Except String (List IssueEntry))
    (fetch_latest_release : Except String (Option Release)) :
    Except String Repo := do
  let name ← ok_or (repo_data.get "name").as_str "\"name\" is not a string"
  let created ← ok_or (repo_data.get "created_at").as_str "\"name\" is not a string"
  let updated ← ok_or (repo_data.get "updated_at").as_str "\"name\" is not a string"
  let primary_language ← ok_or (repo_data.get "language").as_str "\"language\" is not a string"
  let languages_url ← ok_or (repo_data.get "languages_url").as_str
    "\"languages_url\" is not a string"
  let languages ← fetch_languages languages_url
  let homepage := homepage_of repo_data
  let size ← ok_or (repo_data.get "size").as_f64 "\"size\" cannot be read as f64"
  let stars ← ok_or (repo_data.get "stargazers_count").as_u64 "\"stars\" cannot be read as u64"
  let forks ← ok_or (repo_data.get "forks").as_u64 "\"forks_count\" cannot be read as u64"
  let entries ← fetch_issues
  let counts := issue_stats entries
  let is_fork ← ok_or (repo_data.get "fork").as_bool "\"fork\" could not be read as bool"
  let latest_release ← fetch_latest_release
  pure {
    name := name, created := created, updated := updated,
    primary_language := primary_language, languages := languages,
    homepage := homepage, size := size, stars := stars, forks := forks,
    open_issues := counts.1, closed_issues := counts.2.1,
    open_pull_requests := counts.2.2.1, closed_pull_requests := counts.2.2.2,
    latest_release := latest_release, is_fork := is_fork }

/-- Inverting a successful `Except` bind: the first step succeeded and the
continuation succeeded on its result. -/
theorem except_bind_ok {α β : Type} {e : Except String α} {k : α → Except String β} {b : β}
    (h : (e >>= k) = Except.ok b) : ∃ a, e = Except.ok a ∧ k a = Except.ok b := by
  cases e with
  | error m => simp [Bind.bind, Except.bind] at h
  | ok a => exact ⟨a, rfl, by simpa [Bind.bind, Except.bind] using h⟩

/-- Inverting a successful `ok_or`: the option held a value. -/
theorem ok_or_eq_ok {α : Type} {o : Option α} {m : String} {a : α}
    (h : ok_or o m = Except.ok a) : o = some a := by
  cases o with
  | none => simp [ok_or] at h
  | some b => simpa [ok_or] using h

/-- Success inversion for `Repo.new`: every field of a returned `Repo` is the
value extracted from the corresponding response field or sub-fetch. -/
theorem Repo.new_ok {d : Json} {f : String → Except String (List (String × Nat))}
    {fi : Except String (List IssueEntry)} {fr : Except String (Option Release)} {r : Repo}
    (h : Repo.new d f fi fr = Except.ok r) :
    (d.get "name").as_str = some r.name
    ∧ (d.get "created_at").as_str = some r.created
    ∧ (d.get "updated_at").as_str = some r.updated
    ∧ (d.get "language").as_str = some r.primary_language
    ∧ (∃ u, (d.get "languages_url").as_str = some u ∧ f u = Except.ok r.languages)
    ∧ r.homepage = homepage_of d
    ∧ (d.get "size").as_f64 = some r.size
    ∧ (d.get "stargazers_count").as_u64 = some r.stars
    ∧ (d.get "forks").as_u64 = some r.forks
    ∧ (∃ es, fi = Except.ok es
        ∧ r.open_issues = (issue_stats es).1
        ∧ r.closed_issues = (issue_stats es).2.1
        ∧ r.open_pull_requests = (issue_stats es).2.2.1
        ∧ r.closed_pull_requests = (issue_stats es).2.2.2)
    ∧ (d.get "fork").as_bool = some r.is_fork
    ∧ fr = Except.ok r.latest_release := by
  unfold Repo.new at h
  obtain ⟨name, hname, h⟩ := except_bind_ok h
  obtain ⟨created, hcreated, h⟩ := except_bind_ok h
  obtain ⟨updated, hupdated, h⟩ := except_bind_ok h
  obtain ⟨lang, hlang, h⟩ := except_bind_ok h
  obtain ⟨url, hurl, h⟩ := except_bind_ok h
  obtain ⟨langs, hlangs, h⟩ := except_bind_ok h
  obtain ⟨size, hsize, h⟩ := except_bind_ok h
  obtain ⟨stars, hstars, h⟩ := except_bind_ok h
  obtain ⟨forks, hforks, h⟩ := except_bind_ok h
  obtain ⟨entries, hentries, h⟩ := except_bind_ok h
  obtain ⟨fork, hfork, h⟩ := except_bind_ok h
  obtain ⟨release, hrelease, h⟩ := except_bind_ok h
  have hr : r = {
      name := name, created := created, updated := updated,
      primary_language := lang, languages := langs,
      homepage := homepage_of d, size := size, stars := stars, forks := forks,
      open_issues := (issue_stats entries).1,
      closed_issues := (issue_stats entries).2.1,
      open_pull_requests := (issue_stats entries).2.2.1,
      closed_pull_requests := (issue_stats entries).2.2.2,
      latest_release := release, is_fork := fork } := by
    simpa [Pure.pure, Except.pure] using h.symm
  subst hr
  refine ⟨ok_or_eq_ok hname, ok_or_eq_ok hcreated, ok_or_eq_ok hupdated,
    ok_or_eq_ok hlang, ⟨url, ok_or_eq_ok hurl, hlangs⟩, rfl,
    ok_or_eq_ok hsize, ok_or_eq_ok hstars, ok_or_eq_ok hforks,
    ⟨entries, hentries, rfl, rfl, rfl, rfl⟩, ok_or_eq_ok hfork, hrelease⟩

/-- Splitting a filter count along a second predicate. -/
theorem length_filter_and_split {α : Type} (l : List α) (p q : α → Bool) :
    (l.filter (fun x => p x && q x)).length + (l.filter (fun x => p x && !q x)).length
      = (l.filter p).length := by
  induction l with
  | nil => simp
  | cons a l ih =>
    cases hp : p a <;> cases hq : q a <;>
      simp [List.filter_cons, hp, hq] <;> omega

/-- A predicate and its negation partition a list's length. -/
theorem length_filter_not_add {α : Type} (l : List α) (p : α → Bool) :
    (l.filter (fun x => !p x)).length + (l.filter p).length = l.length := by
  induction l with
  | nil => simp
  | cons a l ih =>
    cases hp : p a <;> simp [List.filter_cons, hp] <;> omega

/-- C3: for every `Repo` built by the aggregator, `open_issues +
closed_issues` is the number of listing entries without the pull-request
marker, `open_pull_requests + closed_pull_requests` is the number with the
marker, and the four counts sum to the total number of listing entries. -/
theorem repo_issue_counts_partition (d : Json)
    (f : String → Except String (List (String × Nat)))
    (fi : Except String (List IssueEntry)) (fr : Except String (Option Release))
    (r : Repo) (es : List IssueEntry)
    (h : Repo.new d f fi fr = Except.ok r) (hes : fi = Except.ok es) :
    r.open_issues + r.closed_issues = (es.filter (fun e => !e.is_pull_request)).length
    ∧ r.open_pull_requests + r.closed_pull_requests
        = (es.filter (fun e => e.is_pull_request)).length
    ∧ r.open_issues + r.closed_issues + r.open_pull_requests + r.closed_pull_requests
        = es.length := by
  obtain ⟨-, -, -, -, -, -, -, -, -, ⟨es', hes', h1, h2, h3, h4⟩, -, -⟩ := Repo.new_ok h
  rw [hes] at hes'
  cases hes'
  rw [h1, h2, h3, h4]
  unfold issue_stats
  refine ⟨?_, ?_, ?_⟩
  · exact length_filter_and_split es (fun e => !e.is_pull_request) (fun e => e.is_open)
  · exact length_filter_and_split es (fun e => e.is_pull_request) (fun e => e.is_open)
  · rw [length_filter_and_split es (fun e => !e.is_pull_request) (fun e => e.is_open),
      Nat.add_assoc,
      length_filter_and_split es (fun e => e.is_pull_request) (fun e => e.is_open),
      length_filter_not_add es (fun e => e.is_pull_request)]

/-- A well-formed base-metadata response used as a concrete test fixture. -/
def sample_repo_json : Json := Json.obj [
  ("name", Json.str "rust"),
  ("created_at", Json.str "2010-06-16T20:39:03Z"),
  ("updated_at", Json.str "2020-01-01T00:00:00Z"),
  ("language", Json.str "Rust"),
  ("languages_url", Json.str "https://api.github.com/repos/rust-lang/rust/languages"),
  ("homepage", Json.str "https://www.rust-lang.org"),
  ("size", Json.num 1024),
  ("stargazers_count", Json.num 50000),
  ("forks", Json.num 8000),
  ("fork", Json.bool false)]

/-- A concrete languages fetch returning one language. -/
def sample_languages : String → Except String (List (String × Nat)) :=
  fun _ => Except.ok [("Rust", 9000000)]

/-- A concrete single-page issue listing: one open issue, one open pull
request, one closed pull request. -/
def sample_entries : List IssueEntry :=
  [{ is_open := true, is_pull_request := false },
   { is_open := true, is_pull_request := true },
   { is_open := false, is_pull_request := true }]

/-- The issue-listing fetch producing `sample_entries`. -/
def sample_issues : Except String (List IssueEntry) := Except.ok sample_entries

/-- A concrete latest-release fetch: the repository has no release. -/
def sample_release : Except String (Option Release) := Except.ok none

/-- The `Repo` that `Repo.new` assembles from the sample fixtures. -/
def sample_repo : Repo := {
  name := "rust",
  created := "2010-06-16T20:39:03Z",
  updated := "2020-01-01T00:00:00Z",
  primary_language := "Rust",
  languages := [("Rust", 9000000)],
  homepage := some "https://www.rust-lang.org",
  size := 1024,
  stars := 50000,
  forks := 8000,
  open_issues := 1,
  closed_issues := 0,
  open_pull_requests := 1,
  closed_pull_requests := 1,
  latest_release := none,
  is_fork := false }

/-- Witness for C3 on the sample fixtures: 1 + 0 plain issues against the 1
unmarked entry, 1 + 1 pull requests against the 2 marked entries, and all
four counts sum to the 3 listing entries. -/
theorem repo_issue_counts_partition_witness :
    sample_repo.open_issues + sample_repo.closed_issues
        = (sample_entries.filter (fun e => !e.is_pull_request)).length
    ∧ sample_repo.open_pull_requests + sample_repo.closed_pull_requests
        = (sample_entries.filter (fun e => e.is_pull_request)).length
    ∧ sample_repo.open_issues + sample_repo.closed_issues
        + sample_repo.open_pull_requests + sample_repo.closed_pull_requests
        = sample_entries.length :=
  repo_issue_counts_partition sample_repo_json sample_languages sample_issues sample_release
    sample_repo sample_entries rfl rfl

/-- Unfolding `homepage_of` on a non-empty string value. -/
theorem homepage_of_some {d : Json} {s : String} (hs : s ≠ "")
    (h : (d.get "homepage").as_str = some s) : homepage_of d = some s := by
  unfold homepage_of
  rw [h]
  cases hcase : decide (s = "") with
  | false =>
    have : ¬ s = "" := of_decide_eq_false hcase
    split
    · simp_all
    · simp_all
    · simp_all
  | true => exact absurd (of_decide_eq_true hcase) hs

/-- Unfolding `homepage_of` when the value is absent, non-string, or the
empty string. -/
theorem homepage_of_none {d : Json}
    (h : (d.get "homepage").as_str = none ∨ (d.get "homepage").as_str = some "") :
    homepage_of d = none := by
  unfold homepage_of
  rcases h with h | h
  · rw [h]
  · rw [h]; rfl

/-- C5: in `Repo::new` the homepage is the only defaulted field: an absent or
empty-string `homepage` yields `None`, a non-empty string `s` yields
`Some s`, and every other field of a constructed `Repo` is exactly the value
extracted from the base response or the corresponding sub-fetch. -/
theorem repo_homepage_only_default (d : Json)
    (f : String → Except String (List (String × Nat)))
    (fi : Except String (List IssueEntry)) (fr : Except String (Option Release))
    (r : Repo) (h : Repo.new d f fi fr = Except.ok r) :
    (((d.get "homepage").as_str = none ∨ (d.get "homepage").as_str = some "") →
        r.homepage = none)
    ∧ (∀ s, s ≠ "" → (d.get "homepage").as_str = some s → r.homepage = some s)
    ∧ (d.get "name").as_str = some r.name
    ∧ (d.get "created_at").as_str = some r.created
    ∧ (d.get "updated_at").as_str = some r.updated
    ∧ (d.get "language").as_str = some r.primary_language
    ∧ (∃ u, (d.get "languages_url").as_str = some u ∧ f u = Except.ok r.languages)
    ∧ (d.get "size").as_f64 = some r.size
    ∧ (d.get "stargazers_count").as_u64 = some r.stars
    ∧ (d.get "forks").as_u64 = some r.forks
    ∧ (∃ es, fi = Except.ok es
        ∧ (r.open_issues, r.closed_issues, r.open_pull_requests, r.closed_pull_requests)
            = issue_stats es)
    ∧ (d.get "fork").as_bool = some r.is_fork
    ∧ fr = Except.ok r.latest_release := by
  obtain ⟨h1, h2, h3, h4, h5, hhome, h6, h7, h8, ⟨es, hes, e1, e2, e3, e4⟩, h9, h10⟩ :=
    Repo.new_ok h
  refine ⟨?_, ?_, h1, h2, h3, h4, h5, h6, h7, h8, ⟨es, hes, ?_⟩, h9, h10⟩
  · intro habs
    rw [hhome, homepage_of_none habs]
  · intro s hs hsome
    rw [hhome, homepage_of_some hs hsome]
  · rw [e1, e2, e3, e4]

/-- Witness for C5 on the sample fixtures, whose homepage is the non-empty
string `https://www.rust-lang.org`. -/
theorem repo_homepage_only_default_witness :
    sample_repo.homepage = some "https://www.rust-lang.org"
    ∧ (sample_repo_json.get "name").as_str = some sample_repo.name
    ∧ (sample_repo_json.get "size").as_f64 = some sample_repo.size
    ∧ (sample_repo_json.get "stargazers_count").as_u64 = some sample_repo.stars :=
  ⟨(repo_homepage_only_default sample_repo_json sample_languages sample_issues
      sample_release sample_repo rfl).2.1 "https://www.rust-lang.org" (by decide) rfl,
   (repo_homepage_only_default sample_repo_json sample_languages sample_issues
      sample_release sample_repo rfl).2.2.1,
   (repo_homepage_only_default sample_repo_json sample_languages sample_issues
      sample_release sample_repo rfl).2.2.2.2.2.2.2.1,
   (repo_homepage_only_default sample_repo_json sample_languages sample_issues
      sample_release sample_repo rfl).2.2.2.2.2.2.2.2.1⟩

/-- Replacing the value stored under `key` (every occurrence) in a JSON
object; other values and non-objects are untouched. -/
def Json.setKey (j : Json) (key : String) (v : Json) : Json :=
  match j with
  | .obj fields => .obj (fields.map (fun kv => if kv.1 = key then (kv.1, v) else kv))
  | _ => j

/-- Key lookup after the `setKey` map, at a different key. -/
theorem lookup_map_setKey (key key' : String) (v : Json) (l : List (String × Json))
    (h : key' ≠ key) :
    (l.map (fun kv => if kv.1 = key then (kv.1, v) else kv)).lookup key' = l.lookup key' := by
  induction l with
  | nil => rfl
  | cons kv rest ih =>
    obtain ⟨k1, v1⟩ := kv
    show List.lookup key' ((if k1 = key then (k1, v) else (k1, v1)) :: _) = _
    by_cases hk : k1 = key
    · subst hk
      have hb : (key' == k1) = false := beq_false_of_ne h
      rw [if_pos rfl]
      simp [List.lookup, hb, ih]
    · rw [if_neg hk]
      cases hkk : key' == k1 <;> simp [List.lookup, hkk, ih]

/-- Key lookup after the `setKey`-to-null map, at the replaced key. -/
theorem lookup_map_setKey_self (key : String) (l : List (String × Json)) :
    (l.map (fun kv => if kv.1 = key then (kv.1, Json.null) else kv)).lookup key
      = (l.lookup key).map (fun _ => Json.null) := by
  induction l with
  | nil => rfl
  | cons kv rest ih =>
    obtain ⟨k1, v1⟩ := kv
    show List.lookup key ((if k1 = key then (k1, Json.null) else (k1, v1)) :: _) = _
    by_cases hk : k1 = key
    · subst hk
      rw [if_pos rfl]
      simp [List.lookup]
    · rw [if_neg hk]
      have hb : (key == k1) = false := beq_false_of_ne (fun he => hk he.symm)
      simp [List.lookup, hb, ih]

/-- Reads of other keys are unaffected by `setKey`. -/
theorem Json.get_setKey_ne (j : Json) (key key' : String) (v : Json) (h : key' ≠ key) :
    (j.setKey key v).get key' = j.get key' := by
  cases j with
  | obj fields =>
    show (match (fields.map (fun (kv : String × Json) => if kv.1 = key then (kv.1, v) else kv)).lookup key' with
      | some w => w
      | none => Json.null) = (match fields.lookup key' with
      | some w => w
      | none => Json.null)
    rw [lookup_map_setKey key key' v fields h]
  | null => rfl
  | bool b => rfl
  | num q => rfl
  | str s => rfl
  | arr elems => rfl

/-- After `setKey key .null`, the value read back at `key` is never a
string. -/
theorem Json.as_str_get_setKey_null (j : Json) (key : String) :
    ((j.setKey key .null).get key).as_str = none := by
  cases j with
  | obj fields =>
    show (match (fields.map (fun (kv : String × Json) => if kv.1 = key then (kv.1, Json.null) else kv)).lookup key with
      | some w => w
      | none => Json.null).as_str = none
    rw [lookup_map_setKey_self key fields]
    cases fields.lookup key <;> rfl
  | null => rfl
  | bool b => rfl
  | num q => rfl
  | str s => rfl
  | arr elems => rfl

/-- C10: a `homepage` value of the wrong type (present but neither a string
nor null — here anything whose `as_str` is `None`) is treated exactly like an
absent/null homepage: the aggregation's outcome is unchanged by replacing the
value with JSON null, and on success the constructed `Repo`'s homepage is
`None`; the wrong-typed homepage never makes `Repo::new` fail. -/
theorem repo_homepage_wrong_type_silent (d : Json)
    (f : String → Except String (List (String × Nat)))
    (fi : Except String (List IssueEntry)) (fr : Except String (Option Release))
    (h : (d.get "homepage").as_str = none) :
    (∀ r, Repo.new d f fi fr = Except.ok r → r.homepage = none)
    ∧ Repo.new d f fi fr = Repo.new (d.setKey "homepage" Json.null) f fi fr := by
  constructor
  · intro r hr
    obtain ⟨-, -, -, -, -, hhome, -⟩ := Repo.new_ok hr
    rw [hhome, homepage_of_none (Or.inl h)]
  · have e0 : homepage_of (d.setKey "homepage" Json.null) = homepage_of d := by
      unfold homepage_of
      rw [Json.as_str_get_setKey_null, h]
    unfold Repo.new
    rw [Json.get_setKey_ne d "homepage" "name" Json.null (by decide),
      Json.get_setKey_ne d "homepage" "created_at" Json.null (by decide),
      Json.get_setKey_ne d "homepage" "updated_at" Json.null (by decide),
      Json.get_setKey_ne d "homepage" "language" Json.null (by decide),
      Json.get_setKey_ne d "homepage" "languages_url" Json.null (by decide),
      Json.get_setKey_ne d "homepage" "size" Json.null (by decide),
      Json.get_setKey_ne d "homepage" "stargazers_count" Json.null (by decide),
      Json.get_setKey_ne d "homepage" "forks" Json.null (by decide),
      Json.get_setKey_ne d "homepage" "fork" Json.null (by decide),
      e0]

/-- A base-metadata response whose `homepage` holds a number instead of a
string. -/
def sample_repo_json_num_homepage : Json := Json.obj [
  ("name", Json.str "rust"),
  ("created_at", Json.str "2010-06-16T20:39:03Z"),
  ("updated_at", Json.str "2020-01-01T00:00:00Z"),
  ("language", Json.str "Rust"),
  ("languages_url", Json.str "https://api.github.com/repos/rust-lang/rust/languages"),
  ("homepage", Json.num 5),
  ("size", Json.num 1024),
  ("stargazers_count", Json.num 50000),
  ("forks", Json.num 8000),
  ("fork", Json.bool false)]

/-- Witness for C10: with a numeric homepage the aggregation still succeeds,
the homepage comes out as `None`, and the outcome is the same as with a null
homepage. -/
theorem repo_homepage_wrong_type_silent_witness :
    Repo.new sample_repo_json_num_homepage sample_languages sample_issues sample_release
      = Except.ok { sample_repo with homepage := none }
    ∧ ({ sample_repo with homepage := none } : Repo).homepage = none
    ∧ Repo.new sample_repo_json_num_homepage sample_languages sample_issues sample_release
      = Repo.new (sample_repo_json_num_homepage.setKey "homepage" Json.null)
          sample_languages sample_issues sample_release :=
  ⟨rfl,
   (repo_homepage_wrong_type_silent sample_repo_json_num_homepage sample_languages
      sample_issues sample_release rfl).1 _ rfl,
   (repo_homepage_wrong_type_silent sample_repo_json_num_homepage sample_languages
      sample_issues sample_release rfl).2⟩

/-- C4 (amended): when the earlier-extracted fields of the base response are
well-formed and `stargazers_count` is absent or not an unsigned integer,
`Repo::new` aborts with the fixed error string `"stars" cannot be read as
u64` — naming the struct field `stars`, not the JSON field
`stargazers_count` — and no partial `Repo` is returned. -/
theorem repo_new_missing_stars (d : Json)
    (f : String → Except String (List (String × Nat)))
    (fi : Except String (List IssueEntry)) (fr : Except String (Option Release))
    (h1 : ∃ s, (d.get "name").as_str = some s)
    (h2 : ∃ s, (d.get "created_at").as_str = some s)
    (h3 : ∃ s, (d.get "updated_at").as_str = some s)
    (h4 : ∃ s, (d.get "language").as_str = some s)
    (h5 : ∃ u langs, (d.get "languages_url").as_str = some u ∧ f u = Except.ok langs)
    (h6 : ∃ q, (d.get "size").as_f64 = some q)
    (h7 : (d.get "stargazers_count").as_u64 = none) :
    Repo.new d f fi fr = Except.error "\"stars\" cannot be read as u64" := by
  obtain ⟨name, h1⟩ := h1
  obtain ⟨created, h2⟩ := h2
  obtain ⟨updated, h3⟩ := h3
  obtain ⟨lang, h4⟩ := h4
  obtain ⟨u, langs, h5a, h5b⟩ := h5
  obtain ⟨size, h6⟩ := h6
  simp only [Repo.new, h1, h2, h3, h4, h5a, h5b, h6, h7, ok_or, Bind.bind, Except.bind]

/-- The sample base-metadata response with `stargazers_count` removed. -/
def sample_repo_json_no_stars : Json := Json.obj [
  ("name", Json.str "rust"),
  ("created_at", Json.str "2010-06-16T20:39:03Z"),
  ("updated_at", Json.str "2020-01-01T00:00:00Z"),
  ("language", Json.str "Rust"),
  ("languages_url", Json.str "https://api.github.com/repos/rust-lang/rust/languages"),
  ("homepage", Json.str "https://www.rust-lang.org"),
  ("size", Json.num 1024),
  ("forks", Json.num 8000),
  ("fork", Json.bool false)]

/-- The sample base-metadata response with `created_at` removed. -/
def sample_repo_json_no_created : Json := Json.obj [
  ("name", Json.str "rust"),
  ("updated_at", Json.str "2020-01-01T00:00:00Z"),
  ("language", Json.str "Rust"),
  ("languages_url", Json.str "https://api.github.com/repos/rust-lang/rust/languages"),
  ("homepage", Json.str "https://www.rust-lang.org"),
  ("size", Json.num 1024),
  ("stargazers_count", Json.num 50000),
  ("forks", Json.num 8000),
  ("fork", Json.bool false)]

/-- The sample base-metadata response with `updated_at` removed. -/
def sample_repo_json_no_updated : Json := Json.obj [
  ("name", Json.str "rust"),
  ("created_at", Json.str "2010-06-16T20:39:03Z"),
  ("language", Json.str "Rust"),
  ("languages_url", Json.str "https://api.github.com/repos/rust-lang/rust/languages"),
  ("homepage", Json.str "https://www.rust-lang.org"),
  ("size", Json.num 1024),
  ("stargazers_count", Json.num 50000),
  ("forks", Json.num 8000),
  ("fork", Json.bool false)]

/-- Counterexample to C4 as stated: with `stargazers_count` missing the
aggregation fails, but the error string is `"stars" cannot be read as u64`,
which does not name the field `stargazers_count`; moreover the errors are not
distinguished by the affected field's name — a response missing `created_at`
and one missing `updated_at` produce the identical error, `"name" is not a
string`. -/
theorem repo_new_stars_error_misnamed :
    Repo.new sample_repo_json_no_stars sample_languages sample_issues sample_release
      = Except.error "\"stars\" cannot be read as u64"
    ∧ ¬ List.IsInfix "stargazers_count".data ("\"stars\" cannot be read as u64").data
    ∧ Repo.new sample_repo_json_no_created sample_languages sample_issues sample_release
      = Repo.new sample_repo_json_no_updated sample_languages sample_issues sample_release
    ∧ Repo.new sample_repo_json_no_created sample_languages sample_issues sample_release
      = Except.error "\"name\" is not a string" := by
  refine ⟨rfl, ?_, rfl, rfl⟩
  decide

/-- Witness for the amended C4 on the concrete response missing
`stargazers_count`. -/
theorem repo_new_missing_stars_witness :
    Repo.new sample_repo_json_no_stars sample_languages sample_issues sample_release
      = Except.error "\"stars\" cannot be read as u64" :=
  repo_new_missing_stars sample_repo_json_no_stars sample_languages sample_issues
    sample_release ⟨_, rfl⟩ ⟨_, rfl⟩ ⟨_, rfl⟩ ⟨_, rfl⟩ ⟨_, _, rfl, rfl⟩ ⟨_, rfl⟩ rfl

/-- The base-1024 unit ladder, starting at bytes. -/
def big_byte_units : List String := ["B", "KB", "MB", "GB", "TB", "PB", "EB", "ZB", "YB"]

/-- Modelled from the spec: the byte count is divided by 1024 while it still
reaches 1024, walking up the unit ladder (the fuel bounds the walk to the
ladder's length). -/
def big_byte_scale : Nat → ℚ → ℚ × Nat
  | 0, q => (q, 0)
  | fuel + 1, q =>
    if 1024 ≤ q then
      let p := big_byte_scale fuel (q / 1024)
      (p.1, p.2 + 1)
    else (q, 0)

/-- Rendering a scaled non-negative integer magnitude with `precision`
decimal digits after the point. -/
def dec_render (n : Nat) (precision : Nat) : String :=
  if precision = 0 then toString (n / 10 ^ precision)
  else toString (n / 10 ^ precision) ++ "." ++
    (String.mk (List.replicate (precision - (toString (n % 10 ^ precision)).length) '0')
      ++ toString (n % 10 ^ precision))

/-- A non-negative rational printed with exactly `precision` decimal places,
rounding half up to the nearest representable value. -/
def decimal_string (q : ℚ) (precision : Nat) : String :=
  dec_render (⌊q * (10 : ℚ) ^ precision + 1 / 2⌋).toNat precision

/-- Modelled from the spec: the external `big_bytes` crate's `big_byte`
rendering — a base-1024 human-readable magnitude rounded to `precision`
decimal places, suffixed with the unit reached. -/
def big_byte (q : ℚ) (precision : Nat) : String :=
  let p := big_byte_scale 8 q
  decimal_string p.1 precision ++ " " ++ big_byte_units.getD p.2 "B"

/-- `Repo::human_size(precision)`: the stored kilobyte size is converted to
bytes by multiplying by 1024 and handed to the `big_byte` renderer. -/
def Repo.human_size (r : Repo) (precision : Nat) : String :=
  big_byte (r.size * 1024) precision

/-- C6: for every `Repo` and precision, `human_size(precision)` renders
`size * 1024` bytes through the base-1024 magnitude renderer at the requested
precision; and whenever the stored size is 1024 kilobytes, `human_size(2)`
shows magnitude 1 at the next unit up from kilobytes: `1.00 MB`. -/
theorem repo_human_size_contract (r : Repo) (precision : Nat) :
    r.human_size precision = big_byte (r.size * 1024) precision
    ∧ (r.size = 1024 → r.human_size 2 = "1.00 MB") := by
  constructor
  · rfl
  · intro h
    show big_byte (r.size * 1024) 2 = "1.00 MB"
    rw [h]
    have hscale : big_byte_scale 8 ((1024 : ℚ) * 1024) = (1, 2) := by
      norm_num [big_byte_scale]
    have hfloor : (⌊(1 : ℚ) * (10 : ℚ) ^ (2 : Nat) + 1 / 2⌋ : ℤ) = 100 := by
      rw [Int.floor_eq_iff]
      norm_num
    simp only [big_byte, hscale, decimal_string, hfloor]
    rfl

/-- Witness for C6 on the sample repository, whose stored size is 1024
kilobytes. -/
theorem repo_human_size_contract_witness :
    sample_repo.human_size 2 = big_byte (sample_repo.size * 1024) 2
    ∧ sample_repo.human_size 2 = "1.00 MB" :=
  ⟨(repo_human_size_contract sample_repo 2).1,
   (repo_human_size_contract sample_repo 2).2 rfl⟩
